import Mathlib

/-
Shallow embedding of the hyperspace relayer core and of the ics10-grandpa
light client (ComposableFi/light-clients), covering:

* `wrap_any_msg_into_wasm` and `Chain::submit` for `AnyChain` with the wasm
  meta-client variant (hyperspace/core/src/chain.rs);
* the `IbcProvider` / `Chain` dispatch of `AnyChain` (same file);
* `check_for_misbehaviour` and `finality_notifications` of the parachain
  client (hyperspace/parachain/src/chain.rs);
* `create_clients` (hyperspace/primitives/src/utils.rs);
* the packet-proof verifications of the grandpa light client
  (light-clients/ics10-grandpa/src/client_def.rs);
* the protobuf conversions of the grandpa consensus state
  (light-clients/ics10-grandpa/src/consensus_state.rs).

Opaque external payloads (hashes, encoded states, account ids, RPC
responses) are modelled as `Nat` / `List Nat`; chain-kind specific errors
are collapsed into one error type, as the source itself does through
`AnyError`.  Stateful or asynchronous code is modelled by explicit state /
environment passing; fallible code returns `Except`.
-/

namespace Hyperspace

/-- Uniform error type standing for the chain-specific errors that the source
wraps into `AnyError` / `anyhow::Error`.  `envErr n` stands for an arbitrary
error produced by the environment (RPC, decoding, inner chains). -/
inductive Err where
  | invalidFinalityEvent : Err
  | missingTimestamp : Err
  | invalidTimestamp : Err
  | noJustificationFound : Err
  | membershipFailed : Err
  | heightCheckFailed : Err
  | delayNotElapsed : Err
  | envErr : Nat → Err
deriving DecidableEq

/-- Byte strings (`ics08_wasm::Bytes`, encoded justifications, code ids). -/
abbrev Bytes := List Nat

/-- True when an `Except` value is an error. -/
def isErr {α : Type} : Except Err α → Bool
  | .error _ => true
  | .ok _ => false

/-- IBC `Height`: `(revision_number, revision_height)`. -/
structure Height where
  revision_number : Nat
  revision_height : Nat
deriving DecidableEq

/-- Lexicographic order on heights, as in the source `Height` ordering. -/
def Height.le (a b : Height) : Bool :=
  Nat.blt a.revision_number b.revision_number ||
    (a.revision_number == b.revision_number && Nat.ble a.revision_height b.revision_height)

/-- `pallet_ibc::light_clients::AnyClientState`; `base` stands for any
non-wasm client state payload, `wasm` for `AnyClientState::wasm(inner, code_id)`. -/
inductive AnyClientState where
  | base : Nat → AnyClientState
  | wasm : AnyClientState → Bytes → AnyClientState
deriving DecidableEq

/-- `AnyConsensusState`; `wasm inner code_id h` is
`AnyConsensusState::wasm(inner, code_id, h)`. -/
inductive AnyConsensusState where
  | base : Nat → AnyConsensusState
  | wasm : AnyConsensusState → Bytes → Nat → AnyConsensusState
deriving DecidableEq

/-- A relay-chain header, of which `check_for_misbehaviour` only reads the
block `number`. -/
structure RelayChainHeader where
  number : Nat
deriving DecidableEq

/-- `grandpa_light_client_primitives::FinalityProof`. -/
structure FinalityProof where
  block : Nat
  justification : Bytes
  unknown_headers : List RelayChainHeader
deriving DecidableEq

/-- `ics10_grandpa::client_message::Header`; `parachain_headers` is opaque. -/
structure GrandpaHeader where
  finality_proof : FinalityProof
  parachain_headers : Nat
deriving DecidableEq

/-- `ics10_grandpa::client_message::Misbehaviour`: two finality proofs. -/
structure Misbehaviour where
  first_finality_proof : FinalityProof
  second_finality_proof : FinalityProof
deriving DecidableEq

/-- `ics10_grandpa::client_message::ClientMessage`. -/
inductive ClientMessage where
  | header : GrandpaHeader → ClientMessage
  | misbehaviour : Misbehaviour → ClientMessage
deriving DecidableEq

/-- `pallet_ibc::light_clients::AnyClientMessage`; `wasm` is
`AnyClientMessage::wasm(inner)`, `other` any non-grandpa variant. -/
inductive AnyClientMessage where
  | grandpa : ClientMessage → AnyClientMessage
  | wasm : AnyClientMessage → AnyClientMessage
  | other : Nat → AnyClientMessage
deriving DecidableEq

/-- `MsgCreateAnyClient`. -/
structure MsgCreateAnyClient where
  client_state : AnyClientState
  consensus_state : AnyConsensusState
  signer : Nat
deriving DecidableEq

/-- `MsgUpdateAnyClient`. -/
structure MsgUpdateAnyClient where
  client_id : Nat
  client_message : AnyClientMessage
  signer : Nat
deriving DecidableEq

/-- `MsgConnectionOpenAck`: only `client_state` is touched by the wrapper;
the remaining fields are collapsed into `rest`. -/
structure MsgConnectionOpenAck where
  client_state : Option AnyClientState
  rest : Nat
deriving DecidableEq

/-- `MsgConnectionOpenTry`: the wrapper decodes and re-encodes it without
changing any field (the client-state wrapping is commented out in the
source), so only the payload matters. -/
structure MsgConnectionOpenTry where
  client_state : Option AnyClientState
  rest : Nat
deriving DecidableEq

/-- A protobuf `Any` message as dispatched on `type_url` by
`wrap_any_msg_into_wasm`.  Decoding (`decode_vec`) and re-encoding
(`to_any`) of the four whitelisted types are modelled as the identity on
these structured payloads; `other url v` is any message of another type. -/
inductive IbcMsg where
  | createClient : MsgCreateAnyClient → IbcMsg
  | updateClient : MsgUpdateAnyClient → IbcMsg
  | connOpenAck : MsgConnectionOpenAck → IbcMsg
  | connOpenTry : MsgConnectionOpenTry → IbcMsg
  | other : Nat → Bytes → IbcMsg
deriving DecidableEq

/-- `wrap_any_msg_into_wasm` (hyperspace/core/src/chain.rs): rewrites a
message according to its `type_url` before submission through the wasm
meta-client. -/
def wrap_any_msg_into_wasm (msg : IbcMsg) (code_id : Bytes) : IbcMsg :=
  match msg with
  | .createClient m =>
      .createClient { m with
        consensus_state := AnyConsensusState.wasm m.consensus_state code_id 1,
        client_state := AnyClientState.wasm m.client_state code_id }
  | .connOpenTry m =>
      -- the client-state wrapping here is commented out in the source:
      -- the message is decoded and re-encoded unchanged
      .connOpenTry m
  | .connOpenAck m =>
      .connOpenAck { m with
        client_state := m.client_state.map (fun cs => AnyClientState.wasm cs code_id) }
  | .updateClient m =>
      .updateClient { m with client_message := AnyClientMessage.wasm m.client_message }
  | m => m

/-- The finality event union (`AnyFinalityEvent`), with opaque inner events. -/
inductive AnyFinalityEvent where
  | parachain : Nat → AnyFinalityEvent
  | cosmos : Nat → AnyFinalityEvent
deriving DecidableEq

/-- The transaction id union (`AnyTransactionId`). -/
inductive AnyTransactionId where
  | parachain : Nat → AnyTransactionId
  | cosmos : Nat → AnyTransactionId
deriving DecidableEq

/-- The behaviour of one inner chain (a `ParachainClient` or `CosmosClient`),
modelled as one field per operation of the chain capability.  Pure getters are
data, queries and submissions are functions into `Except`, streams are the
lists of items they would yield.  Payload types that the dispatcher never
inspects are opaque (`Nat` / `List Nat`). -/
structure ChainOps where
  query_latest_ibc_events : Nat → Except Err (Nat × List Nat × Nat)
  ibc_events : List Nat
  query_client_consensus : Height → Nat → Height → Except Err Nat
  query_client_state : Height → Nat → Except Err Nat
  query_connection_end : Height → Nat → Except Err Nat
  query_channel_end : Height → Nat → Nat → Except Err Nat
  query_proof : Height → List Bytes → Except Err Bytes
  query_packet_commitment : Height → Nat → Nat → Nat → Except Err Nat
  query_packet_acknowledgement : Height → Nat → Nat → Nat → Except Err Nat
  query_next_sequence_recv : Height → Nat → Nat → Except Err Nat
  query_packet_receipt : Height → Nat → Nat → Nat → Except Err Nat
  latest_height_and_timestamp : Except Err (Height × Nat)
  query_packet_commitments : Height → Nat → Nat → Except Err (List Nat)
  query_packet_acknowledgements : Height → Nat → Nat → Except Err (List Nat)
  query_unreceived_packets : Height → Nat → Nat → List Nat → Except Err (List Nat)
  query_unreceived_acknowledgements : Height → Nat → Nat → List Nat → Except Err (List Nat)
  channel_whitelist : List (Nat × Nat)
  query_connection_channels : Height → Nat → Except Err Nat
  query_send_packets : Nat → Nat → List Nat → Except Err (List Nat)
  query_recv_packets : Nat → Nat → List Nat → Except Err (List Nat)
  expected_block_time : Nat
  query_client_update_time_and_height : Nat → Height → Except Err (Height × Nat)
  query_host_consensus_state_proof : Height → Except Err (Option Bytes)
  query_ibc_balance : Except Err (List Nat)
  connection_prefix_bytes : Bytes
  client_id : Nat
  connection_id : Nat
  client_type : Nat
  query_timestamp_at : Nat → Except Err Nat
  query_clients : Except Err (List Nat)
  query_channels : Except Err (List (Nat × Nat))
  query_connection_using_client : Nat → Nat → Except Err (List Nat)
  is_update_required : Nat → Nat → Bool
  initialize_client_state : Except Err (AnyClientState × AnyConsensusState)
  query_client_id_from_tx_hash : Nat → Except Err Nat
  upload_wasm : Bytes → Except Err Bytes
  account_id : Nat
  name : Nat
  block_max_weight : Nat
  estimate_weight : List IbcMsg → Except Err Nat
  finality_notifications : List Nat
  submit : List IbcMsg → Except Err Nat
  query_client_message : Nat → Except Err AnyClientMessage

/-- `AnyChain`: the tagged chain union.  `wasm inner code_id client_type` is
the `Wasm(WasmChain { inner, code_id, client_type })` variant. -/
inductive AnyChain where
  | parachain : ChainOps → AnyChain
  | cosmos : ChainOps → AnyChain
  | wasm : AnyChain → Bytes → Nat → AnyChain

/-- `IbcProvider::query_latest_ibc_events` for `AnyChain`: the concrete
variants first downcast the finality event (an `Err` on a mismatch), the wasm
variant forwards. -/
def AnyChain.query_latest_ibc_events : AnyChain → AnyFinalityEvent → Except Err (Nat × List Nat × Nat)
  | .parachain c, fe =>
      match fe with
      | .parachain f => c.query_latest_ibc_events f
      | _ => .error Err.invalidFinalityEvent
  | .cosmos c, fe =>
      match fe with
      | .cosmos f => c.query_latest_ibc_events f
      | _ => .error Err.invalidFinalityEvent
  | .wasm inner _ _, fe => inner.query_latest_ibc_events fe

/-- `IbcProvider::ibc_events` for `AnyChain`. -/
def AnyChain.ibc_events : AnyChain → List Nat
  | .parachain c => c.ibc_events
  | .cosmos c => c.ibc_events
  | .wasm inner _ _ => inner.ibc_events

/-- `IbcProvider::query_client_consensus` for `AnyChain`. -/
def AnyChain.query_client_consensus : AnyChain → Height → Nat → Height → Except Err Nat
  | .parachain c, at_, cid, h => c.query_client_consensus at_ cid h
  | .cosmos c, at_, cid, h => c.query_client_consensus at_ cid h
  | .wasm inner _ _, at_, cid, h => inner.query_client_consensus at_ cid h

/-- `IbcProvider::query_client_state` for `AnyChain`. -/
def AnyChain.query_client_state : AnyChain → Height → Nat → Except Err Nat
  | .parachain c, at_, cid => c.query_client_state at_ cid
  | .cosmos c, at_, cid => c.query_client_state at_ cid
  | .wasm inner _ _, at_, cid => inner.query_client_state at_ cid

/-- `IbcProvider::query_connection_end` for `AnyChain`. -/
def AnyChain.query_connection_end : AnyChain → Height → Nat → Except Err Nat
  | .parachain c, at_, cid => c.query_connection_end at_ cid
  | .cosmos c, at_, cid => c.query_connection_end at_ cid
  | .wasm inner _ _, at_, cid => inner.query_connection_end at_ cid

/-- `IbcProvider::query_channel_end` for `AnyChain`. -/
def AnyChain.query_channel_end : AnyChain → Height → Nat → Nat → Except Err Nat
  | .parachain c, at_, ch, p => c.query_channel_end at_ ch p
  | .cosmos c, at_, ch, p => c.query_channel_end at_ ch p
  | .wasm inner _ _, at_, ch, p => inner.query_channel_end at_ ch p

/-- `IbcProvider::query_proof` for `AnyChain`. -/
def AnyChain.query_proof : AnyChain → Height → List Bytes → Except Err Bytes
  | .parachain c, at_, keys => c.query_proof at_ keys
  | .cosmos c, at_, keys => c.query_proof at_ keys
  | .wasm inner _ _, at_, keys => inner.query_proof at_ keys

/-- `IbcProvider::query_packet_commitment` for `AnyChain`. -/
def AnyChain.query_packet_commitment : AnyChain → Height → Nat → Nat → Nat → Except Err Nat
  | .parachain c, at_, p, ch, s => c.query_packet_commitment at_ p ch s
  | .cosmos c, at_, p, ch, s => c.query_packet_commitment at_ p ch s
  | .wasm inner _ _, at_, p, ch, s => inner.query_packet_commitment at_ p ch s

/-- `IbcProvider::query_packet_acknowledgement` for `AnyChain`. -/
def AnyChain.query_packet_acknowledgement : AnyChain → Height → Nat → Nat → Nat → Except Err Nat
  | .parachain c, at_, p, ch, s => c.query_packet_acknowledgement at_ p ch s
  | .cosmos c, at_, p, ch, s => c.query_packet_acknowledgement at_ p ch s
  | .wasm inner _ _, at_, p, ch, s => inner.query_packet_acknowledgement at_ p ch s

/-- `IbcProvider::query_next_sequence_recv` for `AnyChain`. -/
def AnyChain.query_next_sequence_recv : AnyChain → Height → Nat → Nat → Except Err Nat
  | .parachain c, at_, p, ch => c.query_next_sequence_recv at_ p ch
  | .cosmos c, at_, p, ch => c.query_next_sequence_recv at_ p ch
  | .wasm inner _ _, at_, p, ch => inner.query_next_sequence_recv at_ p ch

/-- `IbcProvider::query_packet_receipt` for `AnyChain`. -/
def AnyChain.query_packet_receipt : AnyChain → Height → Nat → Nat → Nat → Except Err Nat
  | .parachain c, at_, p, ch, s => c.query_packet_receipt at_ p ch s
  | .cosmos c, at_, p, ch, s => c.query_packet_receipt at_ p ch s
  | .wasm inner _ _, at_, p, ch, s => inner.query_packet_receipt at_ p ch s

/-- `IbcProvider::latest_height_and_timestamp` for `AnyChain`. -/
def AnyChain.latest_height_and_timestamp : AnyChain → Except Err (Height × Nat)
  | .parachain c => c.latest_height_and_timestamp
  | .cosmos c => c.latest_height_and_timestamp
  | .wasm inner _ _ => inner.latest_height_and_timestamp

/-- `IbcProvider::query_packet_commitments` for `AnyChain`. -/
def AnyChain.query_packet_commitments : AnyChain → Height → Nat → Nat → Except Err (List Nat)
  | .parachain c, at_, ch, p => c.query_packet_commitments at_ ch p
  | .cosmos c, at_, ch, p => c.query_packet_commitments at_ ch p
  | .wasm inner _ _, at_, ch, p => inner.query_packet_commitments at_ ch p

/-- `IbcProvider::query_packet_acknowledgements` for `AnyChain`. -/
def AnyChain.query_packet_acknowledgements : AnyChain → Height → Nat → Nat → Except Err (List Nat)
  | .parachain c, at_, ch, p => c.query_packet_acknowledgements at_ ch p
  | .cosmos c, at_, ch, p => c.query_packet_acknowledgements at_ ch p
  | .wasm inner _ _, at_, ch, p => inner.query_packet_acknowledgements at_ ch p

/-- `IbcProvider::query_unreceived_packets` for `AnyChain`. -/
def AnyChain.query_unreceived_packets : AnyChain → Height → Nat → Nat → List Nat → Except Err (List Nat)
  | .parachain c, at_, ch, p, seqs => c.query_unreceived_packets at_ ch p seqs
  | .cosmos c, at_, ch, p, seqs => c.query_unreceived_packets at_ ch p seqs
  | .wasm inner _ _, at_, ch, p, seqs => inner.query_unreceived_packets at_ ch p seqs

/-- `IbcProvider::query_unreceived_acknowledgements` for `AnyChain`. -/
def AnyChain.query_unreceived_acknowledgements : AnyChain → Height → Nat → Nat → List Nat → Except Err (List Nat)
  | .parachain c, at_, ch, p, seqs => c.query_unreceived_acknowledgements at_ ch p seqs
  | .cosmos c, at_, ch, p, seqs => c.query_unreceived_acknowledgements at_ ch p seqs
  | .wasm inner _ _, at_, ch, p, seqs => inner.query_unreceived_acknowledgements at_ ch p seqs

/-- `IbcProvider::channel_whitelist` for `AnyChain`. -/
def AnyChain.channel_whitelist : AnyChain → List (Nat × Nat)
  | .parachain c => c.channel_whitelist
  | .cosmos c => c.channel_whitelist
  | .wasm inner _ _ => inner.channel_whitelist

/-- `IbcProvider::query_connection_channels` for `AnyChain`. -/
def AnyChain.query_connection_channels : AnyChain → Height → Nat → Except Err Nat
  | .parachain c, at_, cid => c.query_connection_channels at_ cid
  | .cosmos c, at_, cid => c.query_connection_channels at_ cid
  | .wasm inner _ _, at_, cid => inner.query_connection_channels at_ cid

/-- `IbcProvider::query_send_packets` for `AnyChain`. -/
def AnyChain.query_send_packets : AnyChain → Nat → Nat → List Nat → Except Err (List Nat)
  | .parachain c, ch, p, seqs => c.query_send_packets ch p seqs
  | .cosmos c, ch, p, seqs => c.query_send_packets ch p seqs
  | .wasm inner _ _, ch, p, seqs => inner.query_send_packets ch p seqs

/-- `IbcProvider::query_recv_packets` for `AnyChain`. -/
def AnyChain.query_recv_packets : AnyChain → Nat → Nat → List Nat → Except Err (List Nat)
  | .parachain c, ch, p, seqs => c.query_recv_packets ch p seqs
  | .cosmos c, ch, p, seqs => c.query_recv_packets ch p seqs
  | .wasm inner _ _, ch, p, seqs => inner.query_recv_packets ch p seqs

/-- `IbcProvider::expected_block_time` for `AnyChain`. -/
def AnyChain.expected_block_time : AnyChain → Nat
  | .parachain c => c.expected_block_time
  | .cosmos c => c.expected_block_time
  | .wasm inner _ _ => inner.expected_block_time

/-- `IbcProvider::query_client_update_time_and_height` for `AnyChain`. -/
def AnyChain.query_client_update_time_and_height : AnyChain → Nat → Height → Except Err (Height × Nat)
  | .parachain c, cid, h => c.query_client_update_time_and_height cid h
  | .cosmos c, cid, h => c.query_client_update_time_and_height cid h
  | .wasm inner _ _, cid, h => inner.query_client_update_time_and_height cid h

/-- `IbcProvider::query_host_consensus_state_proof` for `AnyChain`. -/
def AnyChain.query_host_consensus_state_proof : AnyChain → Height → Except Err (Option Bytes)
  | .parachain c, h => c.query_host_consensus_state_proof h
  | .cosmos c, h => c.query_host_consensus_state_proof h
  | .wasm inner _ _, h => inner.query_host_consensus_state_proof h

/-- `IbcProvider::query_ibc_balance` for `AnyChain`. -/
def AnyChain.query_ibc_balance : AnyChain → Except Err (List Nat)
  | .parachain c => c.query_ibc_balance
  | .cosmos c => c.query_ibc_balance
  | .wasm inner _ _ => inner.query_ibc_balance

/-- `IbcProvider::connection_prefix` for `AnyChain` (renamed to avoid a
reserved suffix). -/
def AnyChain.connection_prefix_bytes : AnyChain → Bytes
  | .parachain c => c.connection_prefix_bytes
  | .cosmos c => c.connection_prefix_bytes
  | .wasm inner _ _ => inner.connection_prefix_bytes

/-- `IbcProvider::client_id` for `AnyChain`. -/
def AnyChain.client_id : AnyChain → Nat
  | .parachain c => c.client_id
  | .cosmos c => c.client_id
  | .wasm inner _ _ => inner.client_id

/-- `IbcProvider::connection_id` for `AnyChain`. -/
def AnyChain.connection_id : AnyChain → Nat
  | .parachain c => c.connection_id
  | .cosmos c => c.connection_id
  | .wasm inner _ _ => inner.connection_id

/-- `IbcProvider::client_type` for `AnyChain`. -/
def AnyChain.client_type : AnyChain → Nat
  | .parachain c => c.client_type
  | .cosmos c => c.client_type
  | .wasm inner _ _ => inner.client_type

/-- `IbcProvider::query_timestamp_at` for `AnyChain`. -/
def AnyChain.query_timestamp_at : AnyChain → Nat → Except Err Nat
  | .parachain c, b => c.query_timestamp_at b
  | .cosmos c, b => c.query_timestamp_at b
  | .wasm inner _ _, b => inner.query_timestamp_at b

/-- `IbcProvider::query_clients` for `AnyChain`. -/
def AnyChain.query_clients : AnyChain → Except Err (List Nat)
  | .parachain c => c.query_clients
  | .cosmos c => c.query_clients
  | .wasm inner _ _ => inner.query_clients

/-- `IbcProvider::query_channels` for `AnyChain`. -/
def AnyChain.query_channels : AnyChain → Except Err (List (Nat × Nat))
  | .parachain c => c.query_channels
  | .cosmos c => c.query_channels
  | .wasm inner _ _ => inner.query_channels

/-- `IbcProvider::query_connection_using_client` for `AnyChain`. -/
def AnyChain.query_connection_using_client : AnyChain → Nat → Nat → Except Err (List Nat)
  | .parachain c, h, cid => c.query_connection_using_client h cid
  | .cosmos c, h, cid => c.query_connection_using_client h cid
  | .wasm inner _ _, h, cid => inner.query_connection_using_client h cid

/-- `IbcProvider::is_update_required` for `AnyChain`. -/
def AnyChain.is_update_required : AnyChain → Nat → Nat → Bool
  | .parachain c, lh, lc => c.is_update_required lh lc
  | .cosmos c, lh, lc => c.is_update_required lh lc
  | .wasm inner _ _, lh, lc => inner.is_update_required lh lc

/-- `IbcProvider::initialize_client_state` for `AnyChain`. -/
def AnyChain.initialize_client_state : AnyChain → Except Err (AnyClientState × AnyConsensusState)
  | .parachain c => c.initialize_client_state
  | .cosmos c => c.initialize_client_state
  | .wasm inner _ _ => inner.initialize_client_state

/-- `IbcProvider::query_client_id_from_tx_hash` for `AnyChain`: the concrete
variants downcast the transaction id and panic on a mismatch (`.expect`),
modelled as `none`; the wasm variant forwards the union value. -/
def AnyChain.query_client_id_from_tx_hash : AnyChain → AnyTransactionId → Option (Except Err Nat)
  | .parachain c, tx =>
      match tx with
      | .parachain id => some (c.query_client_id_from_tx_hash id)
      | _ => none
  | .cosmos c, tx =>
      match tx with
      | .cosmos id => some (c.query_client_id_from_tx_hash id)
      | _ => none
  | .wasm inner _ _, tx => inner.query_client_id_from_tx_hash tx

/-- `IbcProvider::upload_wasm` for `AnyChain`. -/
def AnyChain.upload_wasm : AnyChain → Bytes → Except Err Bytes
  | .parachain c, w => c.upload_wasm w
  | .cosmos c, w => c.upload_wasm w
  | .wasm inner _ _, w => inner.upload_wasm w

/-- `KeyProvider::account_id` for `AnyChain`. -/
def AnyChain.account_id : AnyChain → Nat
  | .parachain c => c.account_id
  | .cosmos c => c.account_id
  | .wasm inner _ _ => inner.account_id

/-- `Chain::name` for `AnyChain`. -/
def AnyChain.name : AnyChain → Nat
  | .parachain c => c.name
  | .cosmos c => c.name
  | .wasm inner _ _ => inner.name

/-- `Chain::block_max_weight` for `AnyChain`. -/
def AnyChain.block_max_weight : AnyChain → Nat
  | .parachain c => c.block_max_weight
  | .cosmos c => c.block_max_weight
  | .wasm inner _ _ => inner.block_max_weight

/-- `Chain::estimate_weight` for `AnyChain`. -/
def AnyChain.estimate_weight : AnyChain → List IbcMsg → Except Err Nat
  | .parachain c, msgs => c.estimate_weight msgs
  | .cosmos c, msgs => c.estimate_weight msgs
  | .wasm inner _ _, msgs => inner.estimate_weight msgs

/-- `Chain::finality_notifications` for `AnyChain`: the concrete variants
map their native events into the union, the wasm variant forwards. -/
def AnyChain.finality_notifications : AnyChain → List AnyFinalityEvent
  | .parachain c => c.finality_notifications.map AnyFinalityEvent.parachain
  | .cosmos c => c.finality_notifications.map AnyFinalityEvent.cosmos
  | .wasm inner _ _ => inner.finality_notifications

/-- `Chain::submit` for `AnyChain`: the concrete variants submit and tag the
transaction id; the wasm variant first maps `wrap_any_msg_into_wasm` over the
messages and then submits through the inner chain. -/
def AnyChain.submit : AnyChain → List IbcMsg → Except Err AnyTransactionId
  | .parachain c, msgs => (c.submit msgs).map AnyTransactionId.parachain
  | .cosmos c, msgs => (c.submit msgs).map AnyTransactionId.cosmos
  | .wasm inner code _, msgs =>
      inner.submit (msgs.map (fun msg => wrap_any_msg_into_wasm msg code))

/-- `Chain::query_client_message` for `AnyChain`: implemented only for the
parachain variant; every other variant hits the catch-all `unreachable` arm,
modelled as `none` (a panic, not a returned `Result`). -/
def AnyChain.query_client_message : AnyChain → Nat → Option (Except Err AnyClientMessage)
  | .parachain c, u => some (c.query_client_message u)
  | .cosmos _, _ => none
  | .wasm _ _ _, _ => none

/-- `TestProvider::set_channel_whitelist` for `AnyChain`, as a state update:
the concrete variants replace their whitelist, the wasm variant mutates the
inner chain. -/
def AnyChain.set_channel_whitelist : AnyChain → List (Nat × Nat) → AnyChain
  | .parachain c, wl => .parachain { c with channel_whitelist := wl }
  | .cosmos c, wl => .cosmos { c with channel_whitelist := wl }
  | .wasm inner code ct, wl => .wasm (inner.set_channel_whitelist wl) code ct

/-- A connection end, as consulted by `verify_delay_passed`:
its client id, its delay period (nanoseconds) and the counterparty
commitment prefix bytes. -/
structure ConnectionEnd where
  client_id : Nat
  delay_period : Nat
  counterparty_pfx : Bytes
deriving DecidableEq

/-- The parts of `ReaderContext` consulted by the grandpa packet
verifications: the host's clock and height, the recorded client-update
processed time / height (fallible lookups, as in the source), and the
conversion of a delay period into a block delay. -/
structure ReaderCtx where
  host_timestamp : Nat
  host_height : Height
  client_update_time : Nat → Height → Except Err Nat
  client_update_height : Nat → Height → Except Err Height
  block_delay : Nat → Nat

/-- The grandpa `ClientState` as consulted by the packet verifications.
Its concrete fields live in client_state.rs (outside src); the
verifications only call `verify_height` on it, kept here as the abstract
outcome of that check. -/
structure GClientState where
  height_ok : Height → Bool

/-- `ClientState::verify_height`, called first by every verification; its
body is outside src, so it returns the client state's abstract outcome. -/
def GClientState.verify_height (cs : GClientState) (height : Height) : Except Err Unit :=
  if cs.height_ok height then .ok () else .error Err.heightCheckFailed

/-- Modelled from the spec: `ClientState::verify_delay_passed`
(light-clients/ics10-grandpa/src/client_state.rs, not under src/).  Per the
spec's connection-delay rule, it succeeds exactly when
`current_time ≥ processed_time + delay_period_time` and
`current_height ≥ processed_height + delay_period_height`. -/
def client_state_verify_delay_passed (current_time : Nat) (current_height : Height)
    (processed_time : Nat) (processed_height : Height)
    (delay_period_time : Nat) (delay_period_height : Nat) : Except Err Unit :=
  if Nat.ble (processed_time + delay_period_time) current_time &&
      Height.le ⟨processed_height.revision_number,
                 processed_height.revision_height + delay_period_height⟩ current_height
  then .ok () else .error Err.delayNotElapsed

/-- The free function `verify_delay_passed` of client_def.rs: reads the host
clock and height, looks up the processed time and height of the client
update at `height`, derives the block delay, and defers to the client-state
check. -/
def verify_delay_passed (ctx : ReaderCtx) (height : Height) (connection_end : ConnectionEnd) :
    Except Err Unit :=
  match ctx.client_update_time connection_end.client_id height with
  | .error e => .error e
  | .ok processed_time =>
    match ctx.client_update_height connection_end.client_id height with
    | .error e => .error e
    | .ok processed_height =>
      client_state_verify_delay_passed ctx.host_timestamp ctx.host_height processed_time
        processed_height connection_end.delay_period
        (ctx.block_delay connection_end.delay_period)

/-- True when the connection delay for the update at `height` has elapsed on
the host: both lookups succeed and the spec's two delay inequalities hold. -/
def delayElapsed (ctx : ReaderCtx) (height : Height) (connection_end : ConnectionEnd) : Bool :=
  match ctx.client_update_time connection_end.client_id height,
        ctx.client_update_height connection_end.client_id height with
  | .ok processed_time, .ok processed_height =>
      Nat.ble (processed_time + connection_end.delay_period) ctx.host_timestamp &&
        Height.le ⟨processed_height.revision_number,
                   processed_height.revision_height +
                     ctx.block_delay connection_end.delay_period⟩ ctx.host_height
  | _, _ => false

/-- `GrandpaClient::verify_packet_data`: height check, delay check, then the
membership proof of the packet commitment.  The membership verifier itself
(`light_client_common::verify_membership`) is an external collaborator; its
outcome is the `membership_ok` input. -/
def verify_packet_data (ctx : ReaderCtx) (client_state : GClientState) (height : Height)
    (connection_end : ConnectionEnd) (membership_ok : Bool) : Except Err Unit :=
  match client_state.verify_height height with
  | .error e => .error e
  | .ok _ =>
    match verify_delay_passed ctx height connection_end with
    | .error e => .error e
    | .ok _ => if membership_ok then .ok () else .error Err.membershipFailed

/-- `GrandpaClient::verify_packet_acknowledgement`: same pipeline over the
acknowledgement path. -/
def verify_packet_acknowledgement (ctx : ReaderCtx) (client_state : GClientState)
    (height : Height) (connection_end : ConnectionEnd) (membership_ok : Bool) :
    Except Err Unit :=
  match client_state.verify_height height with
  | .error e => .error e
  | .ok _ =>
    match verify_delay_passed ctx height connection_end with
    | .error e => .error e
    | .ok _ => if membership_ok then .ok () else .error Err.membershipFailed

/-- `GrandpaClient::verify_next_sequence_recv`: same pipeline over the
next-sequence-recv path. -/
def verify_next_sequence_recv (ctx : ReaderCtx) (client_state : GClientState)
    (height : Height) (connection_end : ConnectionEnd) (membership_ok : Bool) :
    Except Err Unit :=
  match client_state.verify_height height with
  | .error e => .error e
  | .ok _ =>
    match verify_delay_passed ctx height connection_end with
    | .error e => .error e
    | .ok _ => if membership_ok then .ok () else .error Err.membershipFailed

/-- `GrandpaClient::verify_packet_receipt_absence`: same pipeline, with the
non-membership proof of the receipt path. -/
def verify_packet_receipt_absence (ctx : ReaderCtx) (client_state : GClientState)
    (height : Height) (connection_end : ConnectionEnd) (membership_ok : Bool) :
    Except Err Unit :=
  match client_state.verify_height height with
  | .error e => .error e
  | .ok _ =>
    match verify_delay_passed ctx height connection_end with
    | .error e => .error e
    | .ok _ => if membership_ok then .ok () else .error Err.membershipFailed

/-- A decoded grandpa justification, of which the detector compares only
`commit.target_hash`. -/
structure GrandpaJustification where
  commit_target_hash : Nat
deriving DecidableEq

/-- The environment of `ParachainClient::check_for_misbehaviour`: the relay
chain RPC (latest block, `prove_finality`), the scale decoders, and the
counterparty used for submission.  All are fallible, as in the source. -/
structure MisbehaviourEnv where
  latest_finalized_block : Except Err (Option Nat)
  prove_finality : Nat → Except Err (Option Bytes)
  decode_finality_proof : Bytes → Except Err FinalityProof
  decode_justification : Bytes → Except Err GrandpaJustification
  submit_result : Except Err Nat
  counterparty_account : Nat
  self_client_id : Nat

/-- What `check_for_misbehaviour` did to the outside world: which heights it
requested a finality proof for, and which client updates it submitted to the
counterparty. -/
structure MisbehaviourTrace where
  prove_finality_calls : List Nat
  submitted : List MsgUpdateAnyClient
deriving DecidableEq

/-- `max_by_key(|h| h.number)` followed by `.number`: the greatest block
number among the headers, `none` on the empty list (where the source's
`.expect` panics). -/
def maxHeaderNumber : List RelayChainHeader → Option Nat
  | [] => none
  | h :: t => some (t.foldl (fun acc x => Nat.max acc x.number) h.number)

/-- `ParachainClient::check_for_misbehaviour`
(hyperspace/parachain/src/chain.rs).  Returns `none` where the source
panics (`.expect` on empty `unknown_headers`, `.unwrap()` on a missing
latest block), otherwise the function's `Result` together with the trace of
its external effects.  Mirrors the source's control flow: only the grandpa
`Header` variant is inspected; every fallible step propagates its error with
`?`; a differing commit target hash triggers exactly one submission of a
`Misbehaviour` client update carrying the submitted proof first and the
independently fetched proof second. -/
def check_for_misbehaviour (env : MisbehaviourEnv) (client_message : AnyClientMessage) :
    Option (Except Err Unit × MisbehaviourTrace) :=
  match client_message with
  | .grandpa (.header header) =>
    match maxHeaderNumber header.finality_proof.unknown_headers with
    | none => none
    | some target_block_number =>
      match env.latest_finalized_block with
      | .error e => some (.error e, ⟨[], []⟩)
      | .ok none => none
      | .ok (some finalized_block_number) =>
        -- `target.min(finalized).saturating_sub(1)`
        let q := Nat.min target_block_number finalized_block_number - 1
        match env.prove_finality q with
        | .error e => some (.error e, ⟨[q], []⟩)
        | .ok none => some (.error Err.noJustificationFound, ⟨[q], []⟩)
        | .ok (some encoded) =>
          match env.decode_finality_proof encoded with
          | .error e => some (.error e, ⟨[q], []⟩)
          | .ok trusted_finality_proof =>
            match env.decode_justification header.finality_proof.justification with
            | .error e => some (.error e, ⟨[q], []⟩)
            | .ok justification =>
              match env.decode_justification trusted_finality_proof.justification with
              | .error e => some (.error e, ⟨[q], []⟩)
              | .ok trusted_justification =>
                if justification.commit_target_hash ≠ trusted_justification.commit_target_hash
                then
                  let msg : MsgUpdateAnyClient :=
                    { client_id := env.self_client_id,
                      client_message := .grandpa (.misbehaviour
                        { first_finality_proof := header.finality_proof,
                          second_finality_proof := trusted_finality_proof }),
                      signer := env.counterparty_account }
                  match env.submit_result with
                  | .error e => some (.error e, ⟨[q], [msg]⟩)
                  | .ok _ => some (.ok (), ⟨[q], [msg]⟩)
                else some (.ok (), ⟨[q], []⟩)
  | _ => some (.ok (), ⟨[], []⟩)

/-- The grandpa downsampling of `finality_notifications`
(hyperspace/parachain/src/chain.rs): the subscription is grouped with
`.chunks(6)` and each group is mapped with `notifs.remove(notifs.len() - 1)`,
i.e. to its last element.  Written as an explicit recursion on the first six
elements: a full group of six contributes its sixth element, a trailing
shorter group (only possible when the finite approximation of the infinite
stream ends) contributes its last element. -/
def grandpaDownsample {α : Type} : List α → List α
  | _ :: _ :: _ :: _ :: _ :: f :: rest => f :: grandpaDownsample rest
  | [] => []
  | [a] => [a]
  | [_, b] => [b]
  | [_, _, c] => [c]
  | [_, _, _, d] => [d]
  | [_, _, _, _, e] => [e]

/-- The grandpa branch of `finality_notifications` on a (finite slice of
the) justification subscription: downsample, then `filter_map` each retained
notification through the scale decoder, dropping the ones that fail to
decode. -/
def finality_notifications_grandpa {E : Type} (decode : Bytes → Option E)
    (justifs : List Bytes) : List E :=
  (grandpaDownsample justifs).filterMap decode

/-- A chain handle as used by `create_clients`
(hyperspace/primitives/src/utils.rs): the operations it invokes, plus the
mutable `client_id` that `set_client_id` replaces. -/
structure ChainHandle where
  initialize_client_state : Except Err (AnyClientState × AnyConsensusState)
  submit : List IbcMsg → Except Err Nat
  query_client_id_from_tx_hash : Nat → Except Err Nat
  account : Nat
  client_id : Option Nat

/-- `set_client_id` on a chain handle. -/
def ChainHandle.set_client_id (c : ChainHandle) (id : Nat) : ChainHandle :=
  { c with client_id := some id }

/-- `create_clients` (hyperspace/primitives/src/utils.rs): initialises both
client states, submits each side's `CreateClient` to the counterparty,
discovers the assigned client ids from the transactions, and persists ids
with `set_client_id`.  The source's two `&mut` handles are returned as the
final pair of states.  Mirrors the source faithfully, including its second
`chain_a.set_client_id(client_id_b_on_a)` call. -/
def create_clients (chain_a chain_b : ChainHandle) :
    Except Err ((Nat × Nat) × ChainHandle × ChainHandle) := do
  let (client_state_a, cs_state_a) ← chain_a.initialize_client_state
  let (client_state_b, cs_state_b) ← chain_b.initialize_client_state
  let msg_a : IbcMsg := .createClient
    { client_state := client_state_b, consensus_state := cs_state_b, signer := chain_a.account }
  let tx_id ← chain_a.submit [msg_a]
  let client_id_b_on_a ← chain_a.query_client_id_from_tx_hash tx_id
  let chain_a := chain_a.set_client_id client_id_b_on_a
  let msg_b : IbcMsg := .createClient
    { client_state := client_state_a, consensus_state := cs_state_a, signer := chain_b.account }
  let tx_id ← chain_b.submit [msg_b]
  let client_id_a_on_b ← chain_b.query_client_id_from_tx_hash tx_id
  -- the source repeats `chain_a.set_client_id(client_id_b_on_a.clone())` here
  let chain_a := chain_a.set_client_id client_id_b_on_a
  .ok ((client_id_a_on_b, client_id_b_on_a), chain_a, chain_b)

/-- A protobuf timestamp (`prost_types::Timestamp`). -/
structure ProtoTimestamp where
  seconds : Int
  nanos : Int
deriving DecidableEq

/-- A `tendermint::time::Time` value, kept as its seconds / nanos pair. -/
structure TmTime where
  seconds : Int
  nanos : Int
deriving DecidableEq

/-- The raw (protobuf) grandpa consensus state. -/
structure RawConsensusState where
  timestamp : Option ProtoTimestamp
  root : Bytes
deriving DecidableEq

/-- The grandpa `ConsensusState`: a timestamp and a commitment root. -/
structure GConsensusState where
  timestamp : TmTime
  root : Bytes
deriving DecidableEq

/-- Validity of a protobuf timestamp as a `tendermint::time::Time` (the
external conversion used by `TryFrom<RawConsensusState>`): seconds within
the representable date range 0001-01-01 to 9999-12-31 and nanos within
`[0, 10^9)`. -/
def validProtoTimestamp (t : ProtoTimestamp) : Bool :=
  decide (-62135596800 ≤ t.seconds) && decide (t.seconds ≤ 253402300799) &&
    decide (0 ≤ t.nanos) && decide (t.nanos < 1000000000)

/-- Validity of a `TmTime` value (every value actually constructed by the
tendermint library satisfies it by construction). -/
def validTmTime (t : TmTime) : Bool :=
  validProtoTimestamp ⟨t.seconds, t.nanos⟩

/-- `TryFrom<RawConsensusState> for ConsensusState`
(light-clients/ics10-grandpa/src/consensus_state.rs): errors when the
timestamp field is absent or does not convert into a valid time, otherwise
rebuilds the consensus state. -/
def consensus_state_try_from (raw : RawConsensusState) : Except Err GConsensusState :=
  match raw.timestamp with
  | none => .error Err.missingTimestamp
  | some ts =>
      if validProtoTimestamp ts then
        .ok { timestamp := ⟨ts.seconds, ts.nanos⟩, root := raw.root }
      else .error Err.invalidTimestamp

/-- `From<ConsensusState> for RawConsensusState`: the timestamp becomes a
present protobuf timestamp with the same seconds / nanos, the root its
bytes. -/
def consensus_state_to_raw (cs : GConsensusState) : RawConsensusState :=
  { timestamp := some ⟨cs.timestamp.seconds, cs.timestamp.nanos⟩, root := cs.root }

/-- A concrete reader context for exercising the delay checks: processed
time 10 and processed height (0, 20) for every update, host clock 100, host
height (0, 50), block delay 5. -/
def ctxW : ReaderCtx :=
  { host_timestamp := 100
    host_height := ⟨0, 50⟩
    client_update_time := fun _ _ => .ok 10
    client_update_height := fun _ _ => .ok ⟨0, 20⟩
    block_delay := fun _ => 5 }

/-- A connection end with a 30-nanosecond delay period. -/
def ceW : ConnectionEnd := { client_id := 0, delay_period := 30, counterparty_pfx := [] }

/-- A client state whose height check always passes. -/
def csW : GClientState := { height_ok := fun _ => true }

/-- A header whose single unknown header has block number 10, with encoded
justification `[3]`. -/
def hdW : GrandpaHeader :=
  { finality_proof := { block := 0, justification := [3], unknown_headers := [⟨10⟩] }
    parachain_headers := 0 }

/-- A detector environment in which every retrieval succeeds and the two
justifications commit to different target hashes: the latest finalized
block is 20, `prove_finality q` answers with the encoded proof `[q]`, the
trusted proof decodes to block 99 with justification bytes `[7]`, and a
justification decodes to its first byte as target hash. -/
def envHappy : MisbehaviourEnv :=
  { latest_finalized_block := .ok (some 20)
    prove_finality := fun q => .ok (some [q])
    decode_finality_proof := fun _ => .ok { block := 99, justification := [7], unknown_headers := [] }
    decode_justification := fun b => .ok ⟨b.headD 0⟩
    submit_result := .ok 5
    counterparty_account := 4
    self_client_id := 11 }

/-- A detector environment that answers every `prove_finality` request with
`Ok(None)` (no justification available). -/
def envNoProof : MisbehaviourEnv :=
  { latest_finalized_block := .ok (some 20)
    prove_finality := fun _ => .ok none
    decode_finality_proof := fun _ => .ok { block := 0, justification := [], unknown_headers := [] }
    decode_justification := fun b => .ok ⟨b.headD 0⟩
    submit_result := .ok 5
    counterparty_account := 4
    self_client_id := 11 }

/-- A chain handle for the bootstrap scenarios: side `a`, whose
`query_client_id_from_tx_hash` discovers client id 7. -/
def handleA : ChainHandle :=
  { initialize_client_state := .ok (.base 1, .base 2)
    submit := fun _ => .ok 100
    query_client_id_from_tx_hash := fun _ => .ok 7
    account := 0
    client_id := none }

/-- A chain handle for the bootstrap scenarios: side `b`, whose
`query_client_id_from_tx_hash` discovers client id 9. -/
def handleB : ChainHandle :=
  { initialize_client_state := .ok (.base 3, .base 4)
    submit := fun _ => .ok 200
    query_client_id_from_tx_hash := fun _ => .ok 9
    account := 1
    client_id := none }

/-- Claim C1: for every list of messages submitted through the wasm
(meta-client) chain variant, `submit` rewrites each message according to its
type before forwarding the list to the inner chain: a `CreateClient` message
has its client state wrapped as a wasm payload keyed by `code_id` and its
consensus state wrapped with `code_id` and initial height 1; an
`UpdateClient` message has its client message wasm-wrapped; a
`ConnectionOpenAck` message has its client state, when present,
wasm-wrapped; a `ConnectionOpenTry` message and every message of any other
type pass through unchanged. -/
theorem wasm_submit_rewrites_messages :
    (∀ (inner : AnyChain) (code : Bytes) (ct : Nat) (msgs : List IbcMsg),
      AnyChain.submit (.wasm inner code ct) msgs =
        inner.submit (msgs.map (fun msg => wrap_any_msg_into_wasm msg code))) ∧
    (∀ (m : MsgCreateAnyClient) (code : Bytes),
      wrap_any_msg_into_wasm (.createClient m) code =
        .createClient { m with
          client_state := AnyClientState.wasm m.client_state code,
          consensus_state := AnyConsensusState.wasm m.consensus_state code 1 }) ∧
    (∀ (m : MsgUpdateAnyClient) (code : Bytes),
      wrap_any_msg_into_wasm (.updateClient m) code =
        .updateClient { m with client_message := AnyClientMessage.wasm m.client_message }) ∧
    (∀ (m : MsgConnectionOpenAck) (code : Bytes),
      wrap_any_msg_into_wasm (.connOpenAck m) code =
        .connOpenAck { m with
          client_state := m.client_state.map (fun cs => AnyClientState.wasm cs code) }) ∧
    (∀ (m : MsgConnectionOpenTry) (code : Bytes),
      wrap_any_msg_into_wasm (.connOpenTry m) code = .connOpenTry m) ∧
    (∀ (url : Nat) (v : Bytes) (code : Bytes),
      wrap_any_msg_into_wasm (.other url v) code = .other url v) :=
  ⟨fun _ _ _ _ => rfl, fun _ _ => rfl, fun _ _ => rfl, fun _ _ => rfl, fun _ _ => rfl,
    fun _ _ _ => rfl⟩

/-- Claim C9: `query_client_message` succeeds only on the parachain variant;
on the Cosmos and wasm variants of `AnyChain` the call hits the catch-all
`unreachable` arm and panics (modelled as `none`) instead of returning a
`Result`. -/
theorem query_client_message_only_parachain :
    (∀ (ops : ChainOps) (u : Nat),
      AnyChain.query_client_message (.parachain ops) u = some (ops.query_client_message u)) ∧
    (∀ (ops : ChainOps) (u : Nat),
      AnyChain.query_client_message (.cosmos ops) u = none) ∧
    (∀ (inner : AnyChain) (code : Bytes) (ct : Nat) (u : Nat),
      AnyChain.query_client_message (.wasm inner code ct) u = none) :=
  ⟨fun _ _ => rfl, fun _ _ => rfl, fun _ _ _ _ => rfl⟩

/-- Claim C7: every chain-capability operation other than `submit` (the
identity and config getters, the mutators, the streams, every query,
`estimate_weight`, `is_update_required`, `initialize_client_state`,
`query_client_id_from_tx_hash`, and `query_latest_ibc_events`) invoked on
the wasm (meta-client) variant of `AnyChain` returns exactly the result of
invoking the same operation with the same arguments on the inner chain. -/
theorem wasm_chain_forwards_to_inner :
    ∀ (inner : AnyChain) (code : Bytes) (ct : Nat),
    (∀ fe, AnyChain.query_latest_ibc_events (.wasm inner code ct) fe =
      inner.query_latest_ibc_events fe) ∧
    (AnyChain.ibc_events (.wasm inner code ct) = inner.ibc_events) ∧
    (∀ a cid h, AnyChain.query_client_consensus (.wasm inner code ct) a cid h =
      inner.query_client_consensus a cid h) ∧
    (∀ a cid, AnyChain.query_client_state (.wasm inner code ct) a cid =
      inner.query_client_state a cid) ∧
    (∀ a cid, AnyChain.query_connection_end (.wasm inner code ct) a cid =
      inner.query_connection_end a cid) ∧
    (∀ a ch p, AnyChain.query_channel_end (.wasm inner code ct) a ch p =
      inner.query_channel_end a ch p) ∧
    (∀ a ks, AnyChain.query_proof (.wasm inner code ct) a ks = inner.query_proof a ks) ∧
    (∀ a p ch s, AnyChain.query_packet_commitment (.wasm inner code ct) a p ch s =
      inner.query_packet_commitment a p ch s) ∧
    (∀ a p ch s, AnyChain.query_packet_acknowledgement (.wasm inner code ct) a p ch s =
      inner.query_packet_acknowledgement a p ch s) ∧
    (∀ a p ch, AnyChain.query_next_sequence_recv (.wasm inner code ct) a p ch =
      inner.query_next_sequence_recv a p ch) ∧
    (∀ a p ch s, AnyChain.query_packet_receipt (.wasm inner code ct) a p ch s =
      inner.query_packet_receipt a p ch s) ∧
    (AnyChain.latest_height_and_timestamp (.wasm inner code ct) =
      inner.latest_height_and_timestamp) ∧
    (∀ a ch p, AnyChain.query_packet_commitments (.wasm inner code ct) a ch p =
      inner.query_packet_commitments a ch p) ∧
    (∀ a ch p, AnyChain.query_packet_acknowledgements (.wasm inner code ct) a ch p =
      inner.query_packet_acknowledgements a ch p) ∧
    (∀ a ch p seqs, AnyChain.query_unreceived_packets (.wasm inner code ct) a ch p seqs =
      inner.query_unreceived_packets a ch p seqs) ∧
    (∀ a ch p seqs,
      AnyChain.query_unreceived_acknowledgements (.wasm inner code ct) a ch p seqs =
        inner.query_unreceived_acknowledgements a ch p seqs) ∧
    (AnyChain.channel_whitelist (.wasm inner code ct) = inner.channel_whitelist) ∧
    (∀ a cid, AnyChain.query_connection_channels (.wasm inner code ct) a cid =
      inner.query_connection_channels a cid) ∧
    (∀ ch p seqs, AnyChain.query_send_packets (.wasm inner code ct) ch p seqs =
      inner.query_send_packets ch p seqs) ∧
    (∀ ch p seqs, AnyChain.query_recv_packets (.wasm inner code ct) ch p seqs =
      inner.query_recv_packets ch p seqs) ∧
    (AnyChain.expected_block_time (.wasm inner code ct) = inner.expected_block_time) ∧
    (∀ cid h, AnyChain.query_client_update_time_and_height (.wasm inner code ct) cid h =
      inner.query_client_update_time_and_height cid h) ∧
    (∀ h, AnyChain.query_host_consensus_state_proof (.wasm inner code ct) h =
      inner.query_host_consensus_state_proof h) ∧
    (AnyChain.query_ibc_balance (.wasm inner code ct) = inner.query_ibc_balance) ∧
    (AnyChain.connection_prefix_bytes (.wasm inner code ct) = inner.connection_prefix_bytes) ∧
    (AnyChain.client_id (.wasm inner code ct) = inner.client_id) ∧
    (AnyChain.connection_id (.wasm inner code ct) = inner.connection_id) ∧
    (AnyChain.client_type (.wasm inner code ct) = inner.client_type) ∧
    (∀ b, AnyChain.query_timestamp_at (.wasm inner code ct) b = inner.query_timestamp_at b) ∧
    (AnyChain.query_clients (.wasm inner code ct) = inner.query_clients) ∧
    (AnyChain.query_channels (.wasm inner code ct) = inner.query_channels) ∧
    (∀ h cid, AnyChain.query_connection_using_client (.wasm inner code ct) h cid =
      inner.query_connection_using_client h cid) ∧
    (∀ lh lc, AnyChain.is_update_required (.wasm inner code ct) lh lc =
      inner.is_update_required lh lc) ∧
    (AnyChain.initialize_client_state (.wasm inner code ct) = inner.initialize_client_state) ∧
    (∀ tx, AnyChain.query_client_id_from_tx_hash (.wasm inner code ct) tx =
      inner.query_client_id_from_tx_hash tx) ∧
    (∀ w, AnyChain.upload_wasm (.wasm inner code ct) w = inner.upload_wasm w) ∧
    (AnyChain.account_id (.wasm inner code ct) = inner.account_id) ∧
    (AnyChain.name (.wasm inner code ct) = inner.name) ∧
    (AnyChain.block_max_weight (.wasm inner code ct) = inner.block_max_weight) ∧
    (∀ msgs, AnyChain.estimate_weight (.wasm inner code ct) msgs =
      inner.estimate_weight msgs) ∧
    (AnyChain.finality_notifications (.wasm inner code ct) = inner.finality_notifications) ∧
    (∀ wl, AnyChain.set_channel_whitelist (.wasm inner code ct) wl =
      .wasm (inner.set_channel_whitelist wl) code ct) := by
  intro inner code ct
  refine ⟨?_, ?_, ?_, ?_, ?_, ?_, ?_, ?_, ?_, ?_, ?_, ?_, ?_, ?_, ?_, ?_, ?_, ?_, ?_, ?_,
    ?_, ?_, ?_, ?_, ?_, ?_, ?_, ?_, ?_, ?_, ?_, ?_, ?_, ?_, ?_, ?_, ?_, ?_, ?_, ?_, ?_, ?_⟩
  all_goals intros
  all_goals rfl

/-- Claim C10: converting a grandpa `ConsensusState` into its raw protobuf
form and back yields `Ok` of the same value (root bytes and timestamp
preserved), and the raw-to-typed conversion errors whenever the raw
timestamp field is absent or does not denote a valid time. -/
theorem grandpa_consensus_state_roundtrip :
    (∀ cs : GConsensusState, validTmTime cs.timestamp = true →
      consensus_state_try_from (consensus_state_to_raw cs) = .ok cs) ∧
    (∀ raw : RawConsensusState, raw.timestamp = none →
      isErr (consensus_state_try_from raw) = true) ∧
    (∀ (raw : RawConsensusState) (ts : ProtoTimestamp), raw.timestamp = some ts →
      validProtoTimestamp ts = false → isErr (consensus_state_try_from raw) = true) := by
  refine ⟨?_, ?_, ?_⟩
  · intro cs h
    obtain ⟨⟨s, n⟩, r⟩ := cs
    simp only [validTmTime] at h
    simp [consensus_state_to_raw, consensus_state_try_from, h]
  · intro raw h
    simp [consensus_state_try_from, h, isErr]
  · intro raw ts h hv
    simp [consensus_state_try_from, h, hv, isErr]

/-- Witness for C10 at a concrete consensus state with timestamp
(5 s, 6 ns) and root `[1, 2]`. -/
theorem grandpa_consensus_state_roundtrip_witness :
    consensus_state_try_from (consensus_state_to_raw ⟨⟨5, 6⟩, [1, 2]⟩) =
      .ok ⟨⟨5, 6⟩, [1, 2]⟩ :=
  grandpa_consensus_state_roundtrip.1 ⟨⟨5, 6⟩, [1, 2]⟩ (by decide)

/-- Claim C8 (evaluated at the failing input): `create_clients` discovers
client id 7 on side `a` and client id 9 on side `b`, returns
`Ok((9, 7))`, persists 7 into chain `a` — but leaves chain `b`'s client id
untouched (`none`), because the source repeats
`chain_a.set_client_id(client_id_b_on_a)` where
`chain_b.set_client_id(client_id_a_on_b)` is intended. -/
theorem create_clients_does_not_set_chain_b :
    (create_clients handleA handleB).map
        (fun r => (r.1, r.2.1.client_id, r.2.2.client_id)) =
      .ok ((9, 7), some 7, none) := rfl

/-- The delay gate of client_def.rs succeeds exactly when `delayElapsed`
holds: both processed-time and processed-height lookups succeed and the two
delay inequalities are satisfied. -/
theorem verify_delay_passed_ok_iff (ctx : ReaderCtx) (h : Height) (ce : ConnectionEnd) :
    (verify_delay_passed ctx h ce = .ok ()) ↔ delayElapsed ctx h ce = true := by
  unfold verify_delay_passed delayElapsed client_state_verify_delay_passed
  rcases ht : ctx.client_update_time ce.client_id h with e | pt
  · simp
  · rcases hh : ctx.client_update_height ce.client_id h with e | ph
    · simp
    · dsimp only
      split
      · simp_all
      · simp_all

/-- The shared pipeline of the four packet verifications: reaching `Ok`
requires the delay gate to have passed. -/
theorem vpd_ok_delay (ctx : ReaderCtx) (cs : GClientState) (h : Height)
    (ce : ConnectionEnd) (m : Bool) :
    verify_packet_data ctx cs h ce m = .ok () → delayElapsed ctx h ce = true := by
  intro hok
  unfold verify_packet_data at hok
  rcases hv : cs.verify_height h with e | ⟨⟩ <;> rw [hv] at hok
  · simp at hok
  · rcases hdp : verify_delay_passed ctx h ce with e | ⟨⟩ <;> rw [hdp] at hok
    · simp at hok
    · exact (verify_delay_passed_ok_iff ctx h ce).1 hdp

/-- The shared pipeline of the four packet verifications: when the delay has
not elapsed, the result is an error. -/
theorem vpd_err_delay (ctx : ReaderCtx) (cs : GClientState) (h : Height)
    (ce : ConnectionEnd) (m : Bool) :
    delayElapsed ctx h ce = false → isErr (verify_packet_data ctx cs h ce m) = true := by
  intro hde
  unfold verify_packet_data
  rcases hv : cs.verify_height h with e | ⟨⟩
  · simp [isErr]
  · rcases hdp : verify_delay_passed ctx h ce with e | ⟨⟩
    · simp [isErr]
    · exfalso
      have hd := (verify_delay_passed_ok_iff ctx h ce).1 hdp
      rw [hde] at hd
      exact Bool.noConfusion hd

/-- Claim C2: each of the four packet-related proof verifications of the
grandpa light client (`verify_packet_data`, `verify_packet_acknowledgement`,
`verify_next_sequence_recv`, `verify_packet_receipt_absence`) returns `Ok`
only when the connection delay has elapsed — the host's clock is at least
the client-update processed time plus the connection's delay period and the
host's height at least the processed height plus the corresponding block
delay — and returns an error whenever the delay has not elapsed. -/
theorem grandpa_packet_proofs_respect_delay :
    ∀ (ctx : ReaderCtx) (cs : GClientState) (h : Height) (ce : ConnectionEnd) (m : Bool),
    ((verify_packet_data ctx cs h ce m = .ok () → delayElapsed ctx h ce = true) ∧
      (delayElapsed ctx h ce = false → isErr (verify_packet_data ctx cs h ce m) = true)) ∧
    ((verify_packet_acknowledgement ctx cs h ce m = .ok () → delayElapsed ctx h ce = true) ∧
      (delayElapsed ctx h ce = false →
        isErr (verify_packet_acknowledgement ctx cs h ce m) = true)) ∧
    ((verify_next_sequence_recv ctx cs h ce m = .ok () → delayElapsed ctx h ce = true) ∧
      (delayElapsed ctx h ce = false →
        isErr (verify_next_sequence_recv ctx cs h ce m) = true)) ∧
    ((verify_packet_receipt_absence ctx cs h ce m = .ok () → delayElapsed ctx h ce = true) ∧
      (delayElapsed ctx h ce = false →
        isErr (verify_packet_receipt_absence ctx cs h ce m) = true)) :=
  fun ctx cs h ce m =>
    ⟨⟨vpd_ok_delay ctx cs h ce m, vpd_err_delay ctx cs h ce m⟩,
     ⟨vpd_ok_delay ctx cs h ce m, vpd_err_delay ctx cs h ce m⟩,
     ⟨vpd_ok_delay ctx cs h ce m, vpd_err_delay ctx cs h ce m⟩,
     ⟨vpd_ok_delay ctx cs h ce m, vpd_err_delay ctx cs h ce m⟩⟩

/-- Witness for C2: at the concrete context `ctxW` the verification at
height (0, 5) succeeds, and the theorem then yields that the delay has
elapsed there. -/
theorem grandpa_packet_proofs_respect_delay_witness :
    delayElapsed ctxW ⟨0, 5⟩ ceW = true :=
  ((grandpa_packet_proofs_respect_delay ctxW csW ⟨0, 5⟩ ceW true).1).1 rfl

/-- Claim C3: on a grandpa `Header` update whose embedded justification
commits to a different target hash than the independently fetched trusted
justification, `check_for_misbehaviour` submits to the counterparty exactly
one client update whose payload is a `Misbehaviour` carrying the submitted
header's finality proof first and the trusted proof second; on any client
message that is not a grandpa `Header`, it returns `Ok(())` without
submitting anything. -/
theorem check_for_misbehaviour_spec :
    (∀ (env : MisbehaviourEnv) (hd : GrandpaHeader) (target fin : Nat) (enc : Bytes)
        (trusted : FinalityProof) (j1 j2 : GrandpaJustification) (tx : Nat),
      maxHeaderNumber hd.finality_proof.unknown_headers = some target →
      env.latest_finalized_block = .ok (some fin) →
      env.prove_finality (Nat.min target fin - 1) = .ok (some enc) →
      env.decode_finality_proof enc = .ok trusted →
      env.decode_justification hd.finality_proof.justification = .ok j1 →
      env.decode_justification trusted.justification = .ok j2 →
      j1.commit_target_hash ≠ j2.commit_target_hash →
      env.submit_result = .ok tx →
      check_for_misbehaviour env (.grandpa (.header hd)) =
        some (.ok (), ⟨[Nat.min target fin - 1],
          [{ client_id := env.self_client_id,
             client_message := .grandpa (.misbehaviour
               { first_finality_proof := hd.finality_proof,
                 second_finality_proof := trusted }),
             signer := env.counterparty_account }]⟩)) ∧
    (∀ (env : MisbehaviourEnv) (m : AnyClientMessage),
      (∀ hd : GrandpaHeader, m ≠ .grandpa (.header hd)) →
      check_for_misbehaviour env m = some (.ok (), ⟨[], []⟩)) := by
  constructor
  · intro env hd target fin enc trusted j1 j2 tx h1 h2 h3 h4 h5 h6 h7 h8
    simp only [check_for_misbehaviour, h1, h2, h3, h4, h5, h6, h8]
    simp [h7]
  · intro env m h
    match m with
    | .grandpa (.header hd) => exact absurd rfl (h hd)
    | .grandpa (.misbehaviour mm) => rfl
    | .wasm m => rfl
    | .other n => rfl

/-- Witness for C3 at the concrete environment `envHappy` and header `hdW`:
the detector fetches the proof for height 9, the two justifications decode
to target hashes 3 and 7, and exactly one misbehaviour update is
submitted. -/
theorem check_for_misbehaviour_spec_witness :
    check_for_misbehaviour envHappy (.grandpa (.header hdW)) =
      some (.ok (), ⟨[9],
        [{ client_id := 11,
           client_message := .grandpa (.misbehaviour
             { first_finality_proof :=
                 { block := 0, justification := [3], unknown_headers := [⟨10⟩] },
               second_finality_proof :=
                 { block := 99, justification := [7], unknown_headers := [] } }),
           signer := 4 }]⟩) :=
  check_for_misbehaviour_spec.1 envHappy hdW 10 20 [9]
    { block := 99, justification := [7], unknown_headers := [] } ⟨3⟩ ⟨7⟩ 5
    rfl rfl rfl rfl rfl rfl (by decide) rfl

/-- Claim C4 fails on the code: with target block number 10 and latest
finalized block 20, the detector requests the finality proof for height 9,
not for `min(10, 20) = 10` — the source applies `saturating_sub(1)` after
the minimum. -/
theorem misbehaviour_fetch_height_counterexample :
    (check_for_misbehaviour envNoProof (.grandpa (.header hdW))).map
        (fun p => p.2.prove_finality_calls) = some [9] ∧
      Nat.min 10 20 = 10 ∧ (9 : Nat) ≠ 10 :=
  ⟨rfl, rfl, by decide⟩

/-- Claim C4 as amended: when checking a grandpa `Header` update, the
detector fetches the source relay chain's finality proof for the height
`min(target, latest_finalized) - 1` (saturating at zero), where `target` is
the greatest block number among the header's unknown headers and
`latest_finalized` the relay chain's latest block number. -/
theorem misbehaviour_fetch_height_minus_one :
    ∀ (env : MisbehaviourEnv) (hd : GrandpaHeader) (target fin : Nat),
      maxHeaderNumber hd.finality_proof.unknown_headers = some target →
      env.latest_finalized_block = .ok (some fin) →
      (check_for_misbehaviour env (.grandpa (.header hd))).map
          (fun p => p.2.prove_finality_calls) = some [Nat.min target fin - 1] := by
  intro env hd target fin h1 h2
  simp only [check_for_misbehaviour, h1, h2]
  cases h3 : env.prove_finality (Nat.min target fin - 1) with
  | error e => simp [h3]
  | ok o =>
    cases o with
    | none => simp [h3]
    | some enc =>
      cases h4 : env.decode_finality_proof enc with
      | error e => simp [h3, h4]
      | ok trusted =>
        cases h5 : env.decode_justification hd.finality_proof.justification with
        | error e => simp [h3, h4, h5]
        | ok j1 =>
          cases h6 : env.decode_justification trusted.justification with
          | error e => simp [h3, h4, h5, h6]
          | ok j2 =>
            by_cases h7 : j1.commit_target_hash = j2.commit_target_hash
            · simp [h3, h4, h5, h6, h7]
            · cases h8 : env.submit_result with
              | error e => simp [h3, h4, h5, h6, h7, h8]
              | ok tx => simp [h3, h4, h5, h6, h7, h8]

/-- Witness for the amended C4: at `envHappy` / `hdW` (target 10, latest
finalized 20) the single `prove_finality` request is for height 9. -/
theorem misbehaviour_fetch_height_minus_one_witness :
    (check_for_misbehaviour envHappy (.grandpa (.header hdW))).map
        (fun p => p.2.prove_finality_calls) = some [9] :=
  misbehaviour_fetch_height_minus_one envHappy hdW 10 20 rfl rfl

/-- Claim C5 fails on the code: when `prove_finality` answers `Ok(None)` (no
justification available), `check_for_misbehaviour` does not swallow the
failure — it returns an `Err` to its caller. -/
theorem misbehaviour_error_propagation_counterexample :
    (check_for_misbehaviour envNoProof (.grandpa (.header hdW))).map
        (fun p => isErr p.1) = some true := rfl

/-- Claim C5 as amended: for every grandpa `Header` message for which either
finality proof is not retrievable (the `prove_finality` query fails or
returns no justification, or a finality proof or justification fails to
decode), `check_for_misbehaviour` submits nothing and propagates the error
to its caller; keeping the relay running is the caller's concern. -/
theorem misbehaviour_retrieval_failures_return_err :
    ∀ (env : MisbehaviourEnv) (hd : GrandpaHeader) (target fin : Nat),
      maxHeaderNumber hd.finality_proof.unknown_headers = some target →
      env.latest_finalized_block = .ok (some fin) →
      ((∀ e, env.prove_finality (Nat.min target fin - 1) = .error e →
        (check_for_misbehaviour env (.grandpa (.header hd))).map
          (fun p => (isErr p.1, p.2.submitted)) = some (true, [])) ∧
      (env.prove_finality (Nat.min target fin - 1) = .ok none →
        (check_for_misbehaviour env (.grandpa (.header hd))).map
          (fun p => (isErr p.1, p.2.submitted)) = some (true, [])) ∧
      (∀ enc e, env.prove_finality (Nat.min target fin - 1) = .ok (some enc) →
        env.decode_finality_proof enc = .error e →
        (check_for_misbehaviour env (.grandpa (.header hd))).map
          (fun p => (isErr p.1, p.2.submitted)) = some (true, [])) ∧
      (∀ enc trusted e, env.prove_finality (Nat.min target fin - 1) = .ok (some enc) →
        env.decode_finality_proof enc = .ok trusted →
        env.decode_justification hd.finality_proof.justification = .error e →
        (check_for_misbehaviour env (.grandpa (.header hd))).map
          (fun p => (isErr p.1, p.2.submitted)) = some (true, [])) ∧
      (∀ enc trusted j1 e, env.prove_finality (Nat.min target fin - 1) = .ok (some enc) →
        env.decode_finality_proof enc = .ok trusted →
        env.decode_justification hd.finality_proof.justification = .ok j1 →
        env.decode_justification trusted.justification = .error e →
        (check_for_misbehaviour env (.grandpa (.header hd))).map
          (fun p => (isErr p.1, p.2.submitted)) = some (true, []))) := by
  intro env hd target fin h1 h2
  refine ⟨?_, ?_, ?_, ?_, ?_⟩
  · intro e h3
    simp [check_for_misbehaviour, h1, h2, h3, isErr]
  · intro h3
    simp [check_for_misbehaviour, h1, h2, h3, isErr]
  · intro enc e h3 h4
    simp [check_for_misbehaviour, h1, h2, h3, h4, isErr]
  · intro enc trusted e h3 h4 h5
    simp [check_for_misbehaviour, h1, h2, h3, h4, h5, isErr]
  · intro enc trusted j1 e h3 h4 h5 h6
    simp [check_for_misbehaviour, h1, h2, h3, h4, h5, h6, isErr]

/-- Witness for the amended C5: at `envNoProof` / `hdW` the missing
justification surfaces as an error with nothing submitted. -/
theorem misbehaviour_retrieval_failures_return_err_witness :
    (check_for_misbehaviour envNoProof (.grandpa (.header hdW))).map
        (fun p => (isErr p.1, p.2.submitted)) = some (true, []) :=
  (misbehaviour_retrieval_failures_return_err envNoProof hdW 10 20 rfl rfl).2.1 rfl

/-- The downsampled stream is a sublist of the source stream: retained
events keep their source-produced order. -/
theorem grandpaDownsample_sublist {α : Type} :
    ∀ xs : List α, List.Sublist (grandpaDownsample xs) xs
  | a :: b :: c :: d :: e :: f :: rest =>
      ((((((grandpaDownsample_sublist rest).cons₂ f).cons e).cons d).cons c).cons b).cons a
  | [] => List.Sublist.refl []
  | [a] => List.Sublist.refl [a]
  | [a, b] => (List.Sublist.refl [b]).cons a
  | [a, b, c] => ((List.Sublist.refl [c]).cons b).cons a
  | [a, b, c, d] => (((List.Sublist.refl [d]).cons c).cons b).cons a
  | [a, b, c, d, e] => ((((List.Sublist.refl [e]).cons d).cons c).cons b).cons a

/-- On a stream slice of exactly `6 * n` justifications the downsampling
keeps `n` events, and the `i`-th retained event is the source event at
index `6 * i + 5` — the last of the `i`-th group of six. -/
theorem grandpaDownsample_get {α : Type} :
    ∀ (xs : List α) (n : Nat), xs.length = 6 * n →
      (grandpaDownsample xs).length = n ∧
        ∀ i, i < n → (grandpaDownsample xs)[i]? = xs[6 * i + 5]?
  | a :: b :: c :: d :: e :: f :: rest, n, hlen => by
      have hrest : rest.length = 6 * (n - 1) ∧ 1 ≤ n := by
        simp only [List.length_cons] at hlen
        omega
      have ih := grandpaDownsample_get rest (n - 1) hrest.1
      constructor
      · have : (grandpaDownsample (a :: b :: c :: d :: e :: f :: rest)).length =
            (grandpaDownsample rest).length + 1 := by
          simp [grandpaDownsample]
        rw [this, ih.1]
        omega
      · intro i hi
        cases i with
        | zero => simp [grandpaDownsample]
        | succ j =>
          have hj : j < n - 1 := by omega
          have hrec := ih.2 j hj
          have hidx : 6 * (j + 1) + 5 = 6 + (6 * j + 5) := by omega
          calc (grandpaDownsample (a :: b :: c :: d :: e :: f :: rest))[j + 1]?
              = (grandpaDownsample rest)[j]? := by
                simp [grandpaDownsample]
            _ = rest[6 * j + 5]? := hrec
            _ = ((a :: b :: c :: d :: e :: f :: rest).drop 6)[6 * j + 5]? := by rfl
            _ = (a :: b :: c :: d :: e :: f :: rest)[6 + (6 * j + 5)]? := by
                rw [List.getElem?_drop]
            _ = (a :: b :: c :: d :: e :: f :: rest)[6 * (j + 1) + 5]? := by rw [hidx]
  | [], n, hlen => by
      constructor
      · simp only [List.length_nil] at hlen
        simp [grandpaDownsample]
        omega
      · intro i hi
        simp only [List.length_nil] at hlen
        omega
  | [a], n, hlen => by simp at hlen; omega
  | [a, b], n, hlen => by simp at hlen; omega
  | [a, b, c], n, hlen => by simp at hlen; omega
  | [a, b, c, d], n, hlen => by simp at hlen; omega
  | [a, b, c, d, e], n, hlen => by simp at hlen; omega

/-- Claim C6: with the grandpa finality protocol, `finality_notifications`
downsamples the justification subscription by retaining exactly one of
every six consecutive justifications — the last of each group of six — and
emits the retained events in source-produced order without reordering (the
retained stream is a sublist of the source stream); the retained
notifications are then decoded one by one, in order. -/
theorem grandpa_downsample_one_in_six :
    ∀ (α : Type) (xs : List α) (n : Nat), xs.length = 6 * n →
      (grandpaDownsample xs).length = n ∧
      (∀ i, i < n → (grandpaDownsample xs)[i]? = xs[6 * i + 5]?) ∧
      List.Sublist (grandpaDownsample xs) xs ∧
      (∀ (E : Type) (decode : Bytes → Option E) (justifs : List Bytes),
        finality_notifications_grandpa decode justifs =
          (grandpaDownsample justifs).filterMap decode) :=
  fun α xs n hlen =>
    ⟨(grandpaDownsample_get xs n hlen).1, (grandpaDownsample_get xs n hlen).2,
      grandpaDownsample_sublist xs, fun _ _ _ => rfl⟩

/-- Witness for C6 on the twelve-element stream `[0, …, 11]`: two events are
retained, they are the source events at indices 5 and 11, and they appear in
source order. -/
theorem grandpa_downsample_one_in_six_witness :
    (grandpaDownsample [0, 1, 2, 3, 4, 5, 6, 7, 8, 9, 10, 11]).length = 2 ∧
      (grandpaDownsample [0, 1, 2, 3, 4, 5, 6, 7, 8, 9, 10, 11])[1]? =
        [0, 1, 2, 3, 4, 5, 6, 7, 8, 9, 10, 11][11]? ∧
      List.Sublist (grandpaDownsample [0, 1, 2, 3, 4, 5, 6, 7, 8, 9, 10, 11])
        [0, 1, 2, 3, 4, 5, 6, 7, 8, 9, 10, 11] :=
  ⟨(grandpa_downsample_one_in_six Nat [0, 1, 2, 3, 4, 5, 6, 7, 8, 9, 10, 11] 2 rfl).1,
    (grandpa_downsample_one_in_six Nat [0, 1, 2, 3, 4, 5, 6, 7, 8, 9, 10, 11] 2 rfl).2.1 1
      (by decide),
    (grandpa_downsample_one_in_six Nat [0, 1, 2, 3, 4, 5, 6, 7, 8, 9, 10, 11] 2 rfl).2.2.1⟩

end Hyperspace
